import Mathlib

/-!
Verification of the Z-Image client core (`client.py`, `handler.py`).

The development shallowly embeds the Python source: bytes are `Nat` values
below 256, JSON objects become structures with `Option` fields for keys that
may be absent, every network interaction is a parameter describing the reply
the environment delivers, and wall-clock time is threaded explicitly through
the polling loop (one unit per `time.sleep(1)`, plus an explicit duration for
each status query).
-/

namespace ZImage

/-! ### Base64 (`base64.b64encode` in handler.py, `base64.b64decode` in client.py) -/

/-- Standard base64 alphabet, in index order. -/
def b64chars : List Char :=
  ['A', 'B', 'C', 'D', 'E', 'F', 'G', 'H', 'I', 'J', 'K', 'L', 'M',
   'N', 'O', 'P', 'Q', 'R', 'S', 'T', 'U', 'V', 'W', 'X', 'Y', 'Z',
   'a', 'b', 'c', 'd', 'e', 'f', 'g', 'h', 'i', 'j', 'k', 'l', 'm',
   'n', 'o', 'p', 'q', 'r', 's', 't', 'u', 'v', 'w', 'x', 'y', 'z',
   '0', '1', '2', '3', '4', '5', '6', '7', '8', '9', '+', '/']

/-- Character for a sextet value (index into the base64 alphabet). -/
def encChar (n : Nat) : Char := b64chars.getD n 'A'

/-- Position of a character in a list, searching from offset `i`. -/
def charIndex (c : Char) : List Char → Nat → Option Nat
  | [], _ => none
  | d :: ds, i => if d = c then some i else charIndex c ds (i + 1)

/-- Sextet value of a base64 alphabet character, `none` if not in the alphabet. -/
def decChar (c : Char) : Option Nat := charIndex c b64chars 0

/-- Base64 encoding of a byte list (the bytes of the PNG produced by the
handler), as produced by Python's `base64.b64encode(...).decode()`: groups
of three bytes become four alphabet characters; a trailing group of two or
one byte is padded with `=` or `==`. -/
def b64encode : List Nat → List Char
  | a :: b :: c :: rest =>
      encChar (a / 4) :: encChar (a % 4 * 16 + b / 16) ::
      encChar (b % 16 * 4 + c / 64) :: encChar (c % 64) :: b64encode rest
  | [a, b] => [encChar (a / 4), encChar (a % 4 * 16 + b / 16), encChar (b % 16 * 4), '=']
  | [a] => [encChar (a / 4), encChar (a % 4 * 16), '=', '=']
  | [] => []

/-- Base64 decoding, as performed by Python's `base64.b64decode` on the
strings the service produces: four characters yield three bytes, with `=`
padding closing the final group. On strings outside the encoder's image this
embedding is strict (`none`) where CPython is lenient, but the two agree on
every string `b64encode` produces, which is all the round-trip law needs. -/
def b64decode : List Char → Option (List Nat)
  | [] => some []
  | c1 :: c2 :: c3 :: c4 :: rest =>
    match decChar c1, decChar c2 with
    | some s1, some s2 =>
      if c3 = '=' then
        if c4 = '=' ∧ rest = [] then some [s1 * 4 + s2 / 16] else none
      else
        match decChar c3 with
        | some s3 =>
          if c4 = '=' then
            if rest = [] then some [s1 * 4 + s2 / 16, s2 % 16 * 16 + s3 / 4] else none
          else
            match decChar c4 with
            | some s4 =>
              (b64decode rest).map fun bs =>
                (s1 * 4 + s2 / 16) :: (s2 % 16 * 16 + s3 / 4) :: (s3 % 4 * 64 + s4) :: bs
            | none => none
        | none => none
    | _, _ => none
  | _ => none

/-- Decoding a character the encoder emitted recovers the sextet. -/
theorem decChar_encChar : ∀ n < 64, decChar (encChar n) = some n := by decide

/-- No alphabet character is the padding character. -/
theorem encChar_ne_pad : ∀ n < 64, encChar n ≠ '=' := by decide

/-- Round trip of the base64 pair: decoding what the handler encodes recovers
the original byte list exactly. -/
theorem b64decode_b64encode :
    (x : List Nat) → (∀ b ∈ x, b < 256) → b64decode (b64encode x) = some x
  | [], _ => rfl
  | [a], h => by
    have ha : a < 256 := h a (by simp)
    have h1 := decChar_encChar (a / 4) (by omega)
    have h2 := decChar_encChar (a % 4 * 16) (by omega)
    simp [b64encode, b64decode, h1, h2]
    omega
  | [a, b], h => by
    have ha : a < 256 := h a (by simp)
    have hb : b < 256 := h b (by simp)
    have h1 := decChar_encChar (a / 4) (by omega)
    have h2 := decChar_encChar (a % 4 * 16 + b / 16) (by omega)
    have h3 := decChar_encChar (b % 16 * 4) (by omega)
    have h3p := encChar_ne_pad (b % 16 * 4) (by omega)
    simp [b64encode, b64decode, h1, h2, h3, h3p]
    omega
  | a :: b :: c :: rest, h => by
    have ha : a < 256 := h a (by simp)
    have hb : b < 256 := h b (by simp)
    have hc : c < 256 := h c (by simp)
    have ih := b64decode_b64encode rest (fun y hy => h y (by simp [hy]))
    have h1 := decChar_encChar (a / 4) (by omega)
    have h2 := decChar_encChar (a % 4 * 16 + b / 16) (by omega)
    have h3 := decChar_encChar (b % 16 * 4 + c / 64) (by omega)
    have h4 := decChar_encChar (c % 64) (by omega)
    have h3p := encChar_ne_pad (b % 16 * 4 + c / 64) (by omega)
    have h4p := encChar_ne_pad (c % 64) (by omega)
    simp [b64encode, b64decode, h1, h2, h3, h4, h3p, h4p, ih]
    omega

/-! ### Data model: requests, JSON bodies, replies -/

/-- Arguments of `generate_sync` / `generate_async` (the `input` payload that
`client.py` posts). Python integers are embedded as `Int`; `%` on `Int` below
agrees with Python's `%` for the positive modulus 8. -/
structure GenRequest where
  prompt : String
  height : Int
  width : Int
  num_inference_steps : Int
  seed : Option Int
deriving DecidableEq

/-- The `output` object of a status or runsync body; `client.py` reads its
`image` and `error` keys with `.get`, so each is an `Option`. An absent
`output` key is embedded as the object with both fields `none`, matching
`result.get("output", \x7b\x7d)`. -/
structure OutputData where
  image : Option String
  error : Option String
deriving DecidableEq

/-- Parsed JSON body of a 200 reply to POST `/runsync`. -/
structure SyncBody where
  error : Option String
  output : OutputData
deriving DecidableEq

/-- HTTP reply the environment delivers to the `/runsync` POST. `body` is the
parsed JSON (only consulted when `code = 200`), `text` the raw text used in
error messages. -/
structure SyncReply where
  code : Nat
  text : String
  body : SyncBody
deriving DecidableEq

/-- Parsed JSON body of a 200 reply to POST `/run`: `result.get("id")`. -/
structure RunBody where
  id : Option String
deriving DecidableEq

/-- HTTP reply the environment delivers to the `/run` POST. -/
structure RunReply where
  code : Nat
  text : String
  body : RunBody
deriving DecidableEq

/-- Parsed JSON body of a 200 reply to GET `/status/...`: the `status`,
`output` and `error` keys, each read with `.get` in `client.py`. -/
structure StatusData where
  status : Option String
  output : OutputData
  error : Option String
deriving DecidableEq

/-- What one status query observes: either a non-200 HTTP reply or a parsed
status body. -/
inductive ReplyOutcome
  | httpError (code : Nat) (text : String)
  | status (sd : StatusData)
deriving DecidableEq

/-- One reply of the environment to a status query, together with the
wall-clock seconds the query takes (network latency); `get_result`'s elapsed
time is the sum of these durations and the 1-second sleeps. -/
structure Reply where
  duration : Nat
  outcome : ReplyOutcome
deriving DecidableEq

/-- Outbound HTTP calls, recorded as a trace by the submission operations. -/
inductive HttpCall
  | post (path : String) (input : GenRequest)
  | get (path : String)
deriving DecidableEq

/-! ### Error taxonomy as the code actually raises it

`client.py` raises bare `Exception(...)` everywhere except the `TimeoutError`
in the poll loop; the `TypeError` below is what `base64.b64decode(None)`
raises when `get_result` reaches a COMPLETED payload without an `image` key,
and `binascii.Error` what `b64decode` raises on a malformed string. -/

/-- Failures of `generate_sync` / `generate_async`, one constructor per
distinct `raise` site (or library error) reachable in the source. -/
inductive SyncError
  | apiRequestFailed (code : Nat) (text : String)
  | generationFailedTop (msg : String)
  | generationFailedOutput (msg : String)
  | noImageInResponse
  | binasciiError
deriving DecidableEq

/-- Failures of `check_status` / `get_result`, one constructor per distinct
`raise` site (or library error) reachable in the source. -/
inductive PollError
  | statusCheckFailed (code : Nat) (text : String)
  | outputError (msg : String)
  | typeError
  | binasciiError
  | jobFailed (msg : String)
  | timeout (maxWait : Nat)
  | unknownStatus (s : Option String)
deriving DecidableEq

/-- Python exception classes under which the failures surface to a caller:
everything in `client.py` is a bare `Exception` except the builtin
`TimeoutError`, the `TypeError` from `b64decode(None)` and `binascii.Error`
from a malformed base64 string. -/
inductive PyExcClass
  | exc
  | timeoutError
  | typeError
  | binasciiError
deriving DecidableEq

/-- Exception class of each `generate_sync` / `generate_async` failure. -/
def SyncError.pyClass : SyncError → PyExcClass
  | .binasciiError => .binasciiError
  | _ => .exc

/-- Exception class of each `get_result` failure. -/
def PollError.pyClass : PollError → PyExcClass
  | .timeout _ => .timeoutError
  | .typeError => .typeError
  | .binasciiError => .binasciiError
  | _ => .exc

/-! ### The handler (`handler.py`) -/

/-- The `input` object as the handler reads it: every key via `.get` with a
default, so each field is an `Option`. -/
structure JobInput where
  prompt : Option String
  height : Option Int
  width : Option Int
  num_inference_steps : Option Int
  seed : Option Int
deriving DecidableEq

/-- Return value of the handler: an error object or the success payload. -/
inductive HandlerResult
  | failure (errorMsg : String)
  | payload (image : String) (format : String) (prompt : String)
      (seed : Option Int) (height : Int) (width : Int)
deriving DecidableEq

/-- Embedding of `generate_image` in handler.py. The pixel generation by the
diffusion pipeline is the external black box, so the PNG bytes it would
produce are a parameter `pixels`; everything else (defaults, the two
validation checks, base64 encoding of the result) follows the source. -/
def generate_image (job : JobInput) (pixels : List Nat) : HandlerResult :=
  let prompt := job.prompt.getD ""
  let height := job.height.getD 1024
  let width := job.width.getD 1024
  if prompt = "" then .failure "No prompt provided"
  else if height % 8 ≠ 0 ∨ width % 8 ≠ 0 then
    .failure "Height and width must be multiples of 8"
  else
    .payload (String.mk (b64encode pixels)) "base64" prompt job.seed height width

/-! ### The client (`client.py`) -/

/-- Embedding of `ZImageClient.generate_sync`. The reply to the single
`requests.post` is the parameter; the returned trace records that exactly one
outbound HTTP call is made, unconditionally, with the caller's request
forwarded unvalidated. The result is the decoded image bytes (PIL's container
parsing of those bytes is outside the embedding). -/
def generate_sync (req : GenRequest) (reply : SyncReply) :
    Except SyncError (List Nat) × List HttpCall :=
  let calls := [HttpCall.post "/runsync" req]
  let r : Except SyncError (List Nat) :=
    if reply.code ≠ 200 then .error (.apiRequestFailed reply.code reply.text)
    else
      match reply.body.error with
      | some msg => .error (.generationFailedTop msg)
      | none =>
        match reply.body.output.error with
        | some msg => .error (.generationFailedOutput msg)
        | none =>
          match reply.body.output.image with
          | none => .error .noImageInResponse
          | some img =>
            if img = "" then .error .noImageInResponse
            else
              match b64decode img.toList with
              | none => .error .binasciiError
              | some bytes => .ok bytes
  (r, calls)

/-- Embedding of `ZImageClient.generate_async`: one unconditional POST to
`/run`; on a 200 reply the function returns `result.get("id")` unchecked. -/
def generate_async (req : GenRequest) (reply : RunReply) :
    Except SyncError (Option String) × List HttpCall :=
  let calls := [HttpCall.post "/run" req]
  let r : Except SyncError (Option String) :=
    if reply.code ≠ 200 then .error (.apiRequestFailed reply.code reply.text)
    else .ok reply.body.id
  (r, calls)

/-- Embedding of `ZImageClient.check_status`: a non-200 reply raises, a 200
reply yields the parsed status body. -/
def check_status (r : Reply) : Except PollError StatusData :=
  match r.outcome with
  | .httpError code text => .error (.statusCheckFailed code text)
  | .status sd => .ok sd

/-- The membership test `job_status in ["IN_QUEUE", "IN_PROGRESS"]`. -/
def isPendingStatus (s : Option String) : Bool :=
  s == some "IN_QUEUE" || s == some "IN_PROGRESS"

/-- Outcome of a `get_result` run: the image bytes, the `None` sentinel, a
raised error, or exhaustion of the supplied environment replies (the run
needed more status replies than the scenario provides). -/
inductive PollResult
  | image (bytes : List Nat)
  | notReady
  | error (e : PollError)
  | exhausted
deriving DecidableEq

/-- Observable behaviour of one `get_result` run: its outcome, the elapsed
time at which each status query was issued, and how many `time.sleep(1)`
calls were made. -/
structure RunOut where
  res : PollResult
  queryTimes : List Nat
  sleeps : Nat
deriving DecidableEq

/-- Embedding of the `while True` loop of `ZImageClient.get_result`. `t` is
the elapsed wall-clock time (seconds since `start_time`); a query issued at
`t` is answered at `t + duration`, which is when the code's
`elapsed = time.time() - start_time` is evaluated in the pending branch, and
`time.sleep(1)` advances the clock by one second before the next query. -/
def get_result_loop (wait : Bool) (maxWait : Nat) : List Reply → Nat → RunOut
  | [], _ => ⟨.exhausted, [], 0⟩
  | r :: rs, t =>
    match check_status r with
    | .error e => ⟨.error e, [t], 0⟩
    | .ok sd =>
      if sd.status == some "COMPLETED" then
        match sd.output.error with
        | some msg => ⟨.error (.outputError msg), [t], 0⟩
        | none =>
          match sd.output.image with
          | none => ⟨.error .typeError, [t], 0⟩
          | some img =>
            match b64decode img.toList with
            | none => ⟨.error .binasciiError, [t], 0⟩
            | some bytes => ⟨.image bytes, [t], 0⟩
      else if sd.status == some "FAILED" then
        ⟨.error (.jobFailed (sd.error.getD "Unknown error")), [t], 0⟩
      else if isPendingStatus sd.status then
        if !wait then ⟨.notReady, [t], 0⟩
        else if t + r.duration > maxWait then ⟨.error (.timeout maxWait), [t], 0⟩
        else
          let o := get_result_loop wait maxWait rs (t + r.duration + 1)
          ⟨o.res, t :: o.queryTimes, o.sleeps + 1⟩
      else ⟨.error (.unknownStatus sd.status), [t], 0⟩

/-- Embedding of `ZImageClient.get_result`: runs the poll loop from elapsed
time zero against the environment's reply sequence. -/
def get_result (wait : Bool) (maxWait : Nat) (replies : List Reply) : RunOut :=
  get_result_loop wait maxWait replies 0

/-- Outcomes the health probe `requests.get(url, timeout=5)` can have. -/
inductive ProbeOutcome
  | reply (code : Nat)
  | connectionRefused
  | timedOut
  | otherFailure
deriving DecidableEq

/-- Exceptions `requests.get` raises in the probe, before the bare `except`. -/
inductive ProbeExc
  | connectionError
  | timeoutExc
  | other
deriving DecidableEq

/-- The `requests.get` call inside `health_check`: a reply yields its status
code, the failure outcomes raise. -/
def probeRequest : ProbeOutcome → Except ProbeExc Nat
  | .reply c => .ok c
  | .connectionRefused => .error .connectionError
  | .timedOut => .error .timeoutExc
  | .otherFailure => .error .other

/-- Embedding of `ZImageClient.health_check`: `status_code == 200` on a
reply, and the bare `except` maps every raised error to `False`; totality of
this function is the embedding of "never raises". -/
def health_check (o : ProbeOutcome) : Bool :=
  match probeRequest o with
  | .ok c => c == 200
  | .error _ => false

/-! ### Glue between handler and client (the deployed composition) -/

/-- The `input` object the client posts, as the handler receives it: every
key is present (`seed` may be JSON null, i.e. `none`). -/
def inputOf (req : GenRequest) : JobInput :=
  ⟨some req.prompt, some req.height, some req.width,
   some req.num_inference_steps, req.seed⟩

/-- The handler's return value as the `output` object of the RunPod reply. -/
def outputOf : HandlerResult → OutputData
  | .failure msg => ⟨none, some msg⟩
  | .payload img _ _ _ _ _ => ⟨some img, none⟩

/-- The 200 reply `/runsync` delivers when the worker runs the handler on the
client's request and the pipeline would produce `pixels`. -/
def runsyncReply (req : GenRequest) (pixels : List Nat) : SyncReply :=
  ⟨200, "", ⟨none, outputOf (generate_image (inputOf req) pixels)⟩⟩

/-! ### Helper predicates and concrete fixtures -/

/-- A status query observing a pending status (`IN_QUEUE` or `IN_PROGRESS`). -/
def isPendingB (r : Reply) : Bool :=
  match r.outcome with
  | .status sd => isPendingStatus sd.status
  | .httpError _ _ => false

/-- A status query observing a status string outside the known set. -/
def isUnknownB (r : Reply) : Bool :=
  match r.outcome with
  | .status sd =>
    !(sd.status == some "COMPLETED") && !(sd.status == some "FAILED") &&
      !isPendingStatus sd.status
  | .httpError _ _ => false

/-- A pending (`IN_QUEUE`) status reply taking `d` seconds. -/
def pendingReply (d : Nat) : Reply := ⟨d, .status ⟨some "IN_QUEUE", ⟨none, none⟩, none⟩⟩

/-- A `COMPLETED` status reply whose output carries no `image` key. -/
def completedNoImage : Reply := ⟨0, .status ⟨some "COMPLETED", ⟨none, none⟩, none⟩⟩

/-- A status reply with a status string outside the known set. -/
def weirdReply : Reply := ⟨0, .status ⟨some "BOOTING", ⟨none, none⟩, none⟩⟩

/-! ### Claim theorems -/

/-- C9: the base64 decoding used by the client is the exact inverse of the
base64 encoding used by the handler: `decode (encode x) = x` for every byte
sequence `x` (this is the theorem `b64decode_b64encode` above, restated here
as the claim's theorem). -/
theorem b64_roundtrip (x : List Nat) (h : ∀ b ∈ x, b < 256) :
    b64decode (b64encode x) = some x :=
  b64decode_b64encode x h

/-- Witness for C9 at the PNG magic prefix bytes. -/
theorem b64_roundtrip_witness :
    (∀ b ∈ ([137, 80, 78, 71] : List Nat), b < 256) ∧
      b64decode (b64encode [137, 80, 78, 71]) = some [137, 80, 78, 71] :=
  ⟨by decide, b64_roundtrip [137, 80, 78, 71] (by decide)⟩

/-- C8: `health_check` is total (the bare `except` traps every raised error,
so the embedding is a plain function into `Bool`) and returns `false` on
connection refusal, on timeout, and on every non-2xx reply. -/
theorem health_check_false_on_failure :
    health_check .connectionRefused = false ∧ health_check .timedOut = false ∧
      ∀ c : Nat, c < 200 ∨ 300 ≤ c → health_check (.reply c) = false := by
  refine ⟨rfl, rfl, ?_⟩
  intro c hc
  simp only [health_check, probeRequest]
  rw [beq_eq_false_iff_ne]
  omega

/-- Witness for C8 at status code 503. -/
theorem health_check_false_on_failure_witness :
    (503 < 200 ∨ 300 ≤ 503) ∧ health_check (.reply 503) = false :=
  ⟨by omega, health_check_false_on_failure.2.2 503 (by omega)⟩

/-- C10: on a 200 reply to the async submission, `generate_async` returns
`result.get("id")` unchecked: whatever the `id` field holds, and in
particular the null handle `none` when the body lacks an `id`, with no error
raised. -/
theorem generate_async_id_unchecked :
    (∀ req reply, reply.code = 200 →
        (generate_async req reply).1 = Except.ok reply.body.id) ∧
      ∀ req text, (generate_async req ⟨200, text, ⟨none⟩⟩).1 = Except.ok none := by
  constructor
  · intro req reply h
    simp [generate_async, h]
  · intro req text
    simp [generate_async]

/-- Witness for C10: a 200 reply whose body has no `id`. -/
theorem generate_async_id_unchecked_witness :
    (generate_async ⟨"sunset", 1024, 1024, 9, none⟩ ⟨200, "", ⟨none⟩⟩).1 = Except.ok none :=
  generate_async_id_unchecked.1 ⟨"sunset", 1024, 1024, 9, none⟩ ⟨200, "", ⟨none⟩⟩ rfl

/-- C6: with `wait = false`, a pending first observation returns the `None`
sentinel immediately: exactly one status query, issued at elapsed time zero,
and no sleep. -/
theorem get_result_nowait_pending :
    ∀ (maxWait : Nat) (r : Reply) (rs : List Reply), isPendingB r = true →
      get_result false maxWait (r :: rs) = ⟨.notReady, [0], 0⟩ := by
  intro maxWait r rs h
  rcases r with ⟨d, oc⟩
  cases oc with
  | httpError c txt => simp [isPendingB] at h
  | status sd =>
    simp only [isPendingB, isPendingStatus, Bool.or_eq_true, beq_iff_eq] at h
    rcases h with h | h <;>
      simp [get_result, get_result_loop, check_status, isPendingStatus, h]

/-- Witness for C6 at a concrete pending reply. -/
theorem get_result_nowait_pending_witness :
    get_result false 120 [pendingReply 0] = ⟨.notReady, [0], 0⟩ :=
  get_result_nowait_pending 120 (pendingReply 0) [] (by decide)

/-- C5 counterexample: on a `COMPLETED` status whose output lacks the image
field, `get_result` does not raise an error carrying the "no image in
response" indication: it reaches `base64.b64decode(None)`, which raises a
bare `TypeError`. -/
theorem get_result_missing_image_counterexample :
    (get_result true 120 [completedNoImage]).res = .error .typeError ∧
      PollError.typeError ≠ .outputError "No image in response" := by decide

/-- C5 as amended: a `COMPLETED` payload without an image never yields a
silent empty result — `generate_sync` raises its generic Exception whose
message starts "No image in response" (also for a falsy empty-string image),
while `get_result` raises the `TypeError` coming from `b64decode(None)`,
which carries no missing-image indication. -/
theorem missing_image_always_errors :
    (∀ req text, (generate_sync req ⟨200, text, ⟨none, ⟨none, none⟩⟩⟩).1 =
        Except.error SyncError.noImageInResponse) ∧
      (∀ req text, (generate_sync req ⟨200, text, ⟨none, ⟨some "", none⟩⟩⟩).1 =
        Except.error SyncError.noImageInResponse) ∧
      ∀ (wt : Bool) (w d : Nat) (e : Option String) (rest : List Reply),
        (get_result wt w (⟨d, .status ⟨some "COMPLETED", ⟨none, none⟩, e⟩⟩ :: rest)).res =
          .error .typeError := by
  refine ⟨fun req text => rfl, fun req text => rfl, ?_⟩
  intro wt w d e rest
  simp [get_result, get_result_loop, check_status]

/-- C1 counterexample: a request with an empty prompt (and one with height
1023, not a multiple of 8) is posted anyway — each submission operation
performs its one outbound HTTP call, so the claimed zero network calls and
pre-network `ValidationError` are refuted. -/
theorem no_client_validation_counterexample :
    (generate_sync ⟨"", 1024, 1024, 9, none⟩
        (runsyncReply ⟨"", 1024, 1024, 9, none⟩ [])).2 =
      [.post "/runsync" ⟨"", 1024, 1024, 9, none⟩] ∧
    (generate_async ⟨"x", 1023, 1024, 9, none⟩ ⟨200, "", ⟨some "job-1"⟩⟩).2 =
      [.post "/run" ⟨"x", 1023, 1024, 9, none⟩] :=
  ⟨rfl, rfl⟩

/-- C1 as amended: neither submission operation validates client-side — each
unconditionally performs exactly one outbound HTTP POST carrying the raw
request. Validation happens server-side in `generate_image`, which rejects an
empty prompt or a dimension that is not a multiple of 8 with an error payload
that `generate_sync` surfaces as its generic "Generation failed" exception;
positivity is checked nowhere (height 0 passes the handler's validation). -/
theorem validation_is_server_side :
    (∀ req reply, (generate_sync req reply).2 = [.post "/runsync" req]) ∧
      (∀ req reply, (generate_async req reply).2 = [.post "/run" req]) ∧
      (∀ req pixels,
        req.prompt = "" ∨ req.height % 8 ≠ 0 ∨ req.width % 8 ≠ 0 →
        ∃ msg, (generate_sync req (runsyncReply req pixels)).1 =
          Except.error (SyncError.generationFailedOutput msg)) ∧
      generate_image ⟨some "sunset", some 0, some 1024, some 9, none⟩ [] =
        .payload "" "base64" "sunset" none 0 1024 := by
  refine ⟨fun req reply => rfl, fun req reply => rfl, ?_, rfl⟩
  intro req pixels h
  by_cases hp : req.prompt = ""
  · exact ⟨"No prompt provided",
      by simp [generate_sync, runsyncReply, inputOf, generate_image, outputOf, hp]⟩
  · have hd : req.height % 8 ≠ 0 ∨ req.width % 8 ≠ 0 := by tauto
    have hd2 : ¬(8 : Int) ∣ req.height ∨ ¬(8 : Int) ∣ req.width := by
      rcases hd with h8 | h8
      · exact Or.inl (by omega)
      · exact Or.inr (by omega)
    exact ⟨"Height and width must be multiples of 8",
      by simp [generate_sync, runsyncReply, inputOf, generate_image, outputOf, hp, hd2]⟩

/-- Witness for C1's amended theorem at a height that is not a multiple of
eight. -/
theorem validation_is_server_side_witness :
    ∃ msg, (generate_sync ⟨"x", 1023, 1024, 9, none⟩
        (runsyncReply ⟨"x", 1023, 1024, 9, none⟩ [])).1 =
      Except.error (SyncError.generationFailedOutput msg) :=
  validation_is_server_side.2.2.1 ⟨"x", 1023, 1024, 9, none⟩ [] (by decide)

/-- C2 counterexample: a transport failure of the status call, a reported
`FAILED` job and an unrecognized status string all surface under the same
Python exception class (`Exception`), as do the transport and remote failures
of `generate_sync` — the claimed five distinct error kinds are collapsed. -/
theorem error_kinds_collapsed_counterexample :
    PollError.pyClass (.statusCheckFailed 500 "boom") = PollError.pyClass (.jobFailed "oops") ∧
      PollError.pyClass (.jobFailed "oops") = PollError.pyClass (.unknownStatus (some "WEIRD")) ∧
      SyncError.pyClass (.apiRequestFailed 500 "boom") =
        SyncError.pyClass (.generationFailedTop "oops") := by decide

/-- C2 as amended: the only failure of the poll loop a caller can recognize
by exception type is the timeout (`TimeoutError`; plus the accidental
`TypeError`/`binascii.Error` from decoding); transport, remote and
unrecognized-status failures all share the generic `Exception` class and are
distinguishable only by message text, and no `ValidationError` exists. -/
theorem only_timeout_programmatically_distinct :
    (∀ e : PollError, e.pyClass = .timeoutError ↔ ∃ w, e = .timeout w) ∧
      ∀ (c : Nat) (t m : String) (s : Option String),
        PollError.pyClass (.statusCheckFailed c t) = .exc ∧
          PollError.pyClass (.jobFailed m) = .exc ∧
          PollError.pyClass (.outputError m) = .exc ∧
          PollError.pyClass (.unknownStatus s) = .exc := by
  constructor
  · intro e
    cases e <;> simp [PollError.pyClass]
  · intro c t m s
    exact ⟨rfl, rfl, rfl, rfl⟩

/-! ### Invariants of the poll loop -/

/-- Every status query of a run started at elapsed time `t ≤ maxWait + 1` is
issued at elapsed time at most `maxWait + 1`: an additional query follows a
deadline check `elapsed ≤ maxWait` plus the one-second sleep. -/
theorem loop_queryTimes_le (wt : Bool) (w : Nat) :
    ∀ (rs : List Reply) (t : Nat), t ≤ w + 1 →
      ∀ q ∈ (get_result_loop wt w rs t).queryTimes, q ≤ w + 1 := by
  intro rs
  induction rs with
  | nil =>
    intro t ht q hq
    simp [get_result_loop] at hq
  | cons r rs ih =>
    intro t ht q hq
    simp only [get_result_loop] at hq
    split at hq
    · simp at hq; omega
    · split at hq
      · split at hq <;> try (simp at hq; omega)
        split at hq <;> try (simp at hq; omega)
        split at hq <;> (simp at hq; omega)
      · split at hq
        · simp at hq; omega
        · split at hq
          · split at hq
            · simp at hq; omega
            · split at hq
              · simp at hq; omega
              · simp only [List.mem_cons] at hq
                rcases hq with hq | hq
                · omega
                · next hle _ =>
                    exact ih (t + r.duration + 1) (by omega) q hq
          · simp at hq; omega

/-- A 200 status reply is exactly a parsed status body. -/
theorem check_status_ok {r : Reply} {sd : StatusData} (h : check_status r = .ok sd) :
    r.outcome = .status sd := by
  rcases r with ⟨d, oc⟩
  cases oc <;> simp_all [check_status]

/-- When a run times out, the bound named by the error is `maxWait`, the
failing deadline check issued no further query (one more query than sleeps),
and every consumed reply had observed a pending status. -/
theorem loop_timeout_inv (wt : Bool) (w : Nat) :
    ∀ (rs : List Reply) (t : Nat) (o : RunOut), get_result_loop wt w rs t = o →
      ∀ m, o.res = .error (.timeout m) →
        m = w ∧ o.queryTimes.length = o.sleeps + 1 ∧
          ∀ r ∈ List.take o.queryTimes.length rs, isPendingB r = true := by
  intro rs
  induction rs with
  | nil =>
    intro t o ho m hm
    simp only [get_result_loop] at ho
    subst ho
    simp at hm
  | cons r rs ih =>
    intro t o ho m hm
    rcases r with ⟨d, oc⟩
    cases oc with
    | httpError c txt =>
      simp only [get_result_loop, check_status] at ho
      subst ho
      simp at hm
    | status sd =>
      simp only [get_result_loop, check_status] at ho
      split at ho
      · split at ho
        · subst ho; simp at hm
        · split at ho
          · subst ho; simp at hm
          · split at ho
            · subst ho; simp at hm
            · subst ho; simp at hm
      · split at ho
        · subst ho; simp at hm
        · split at ho
          · split at ho
            · subst ho; simp at hm
            · split at ho
              · rename_i hC hF hpend hw hgt
                subst ho
                simp only [RunOut.res, PollResult.error.injEq, PollError.timeout.injEq] at hm
                refine ⟨by omega, by simp, ?_⟩
                intro r' hr'
                simp at hr'
                subst hr'
                simp [isPendingB, hpend]
              · rename_i hC hF hpend hw hle
                subst ho
                simp only [RunOut.res] at hm
                obtain ⟨hm1, hm2, hm3⟩ := ih (t + d + 1) _ rfl m hm
                refine ⟨hm1, ?_, ?_⟩
                · simp only [RunOut.queryTimes, RunOut.sleeps, List.length_cons]
                  omega
                · intro r' hr'
                  simp only [RunOut.queryTimes, List.length_cons,
                    List.take_succ_cons, List.mem_cons] at hr'
                  rcases hr' with hr' | hr'
                  · subst hr'; simp [isPendingB, hpend]
                  · exact hm3 r' (by simpa using hr')
          · subst ho; simp at hm

/-- If every reply observes a pending status and the scenario provides at
least `maxWait + 2 - t` replies, a waiting run started at elapsed `t` ends in
the timeout error: each iteration advances the clock by at least the one
second of sleep, so the deadline check eventually fails. -/
theorem loop_all_pending_timeout (w : Nat) :
    ∀ (rs : List Reply) (t : Nat), (∀ r ∈ rs, isPendingB r = true) →
      t ≤ w + 1 → w + 2 ≤ rs.length + t →
      (get_result_loop true w rs t).res = .error (.timeout w) := by
  intro rs
  induction rs with
  | nil =>
    intro t hp ht hl
    simp only [List.length_nil, Nat.zero_add] at hl
    omega
  | cons r rs ih =>
    intro t hp ht hl
    have hr : isPendingB r = true := hp r (by simp)
    rcases r with ⟨d, oc⟩
    cases oc with
    | httpError c txt => simp [isPendingB] at hr
    | status sd =>
      simp only [isPendingB, isPendingStatus, Bool.or_eq_true, beq_iff_eq] at hr
      by_cases hdw : t + d > w
      · rcases hr with hs | hs <;>
          simp [get_result_loop, check_status, isPendingStatus, hs, hdw]
      · have hrec := ih (t + d + 1) (fun r' hr' => hp r' (by simp [hr']))
          (by omega) (by simp only [List.length_cons] at hl ⊢; omega)
        rcases hr with hs | hs <;>
          simpa [get_result_loop, check_status, isPendingStatus, hs, hdw] using hrec

/-- C4: a waiting run on a job that stays pending long enough that the
elapsed wall clock exceeds `maxWait` ends in `TimeoutError` (at least
`maxWait + 2` pending observations force it, since each poll cycle sleeps one
second), and conversely a run that ends in `TimeoutError` observed only
pending statuses — so a terminal status observed before the deadline never
yields a `TimeoutError`. -/
theorem timeout_iff_pending_past_deadline :
    (∀ (w : Nat) (rs : List Reply), (∀ r ∈ rs, isPendingB r = true) →
        w + 2 ≤ rs.length → (get_result true w rs).res = .error (.timeout w)) ∧
      ∀ (wt : Bool) (w : Nat) (rs : List Reply) (m : Nat),
        (get_result wt w rs).res = .error (.timeout m) →
          ∀ r ∈ List.take (get_result wt w rs).queryTimes.length rs, isPendingB r = true := by
  constructor
  · intro w rs hp hl
    exact loop_all_pending_timeout w rs 0 hp (by omega) (by omega)
  · intro wt w rs m hm
    exact (loop_timeout_inv wt w rs 0 _ rfl m hm).2.2

/-- Witness for C4: two pending replies with `maxWait = 0` time out, and the
timed-out run consumed only pending observations. -/
theorem timeout_iff_pending_past_deadline_witness :
    (get_result true 0 [pendingReply 0, pendingReply 0]).res = .error (.timeout 0) ∧
      isPendingB (pendingReply 0) = true :=
  ⟨timeout_iff_pending_past_deadline.1 0 [pendingReply 0, pendingReply 0]
      (by decide) (by decide),
    timeout_iff_pending_past_deadline.2 true 0 [pendingReply 0, pendingReply 0] 0
      (timeout_iff_pending_past_deadline.1 0 [pendingReply 0, pendingReply 0]
        (by decide) (by decide))
      (pendingReply 0) (by decide)⟩

/-- C3 counterexample: with `maxWait = 10` and a first status query that
takes 10 seconds to answer, the deadline check after the pending observation
passes (10 > 10 is false), the loop sleeps one second, and the second status
query is issued at elapsed time 11 — a query issued at a moment when the
elapsed time already exceeds `maxWait`, whereupon the run times out naming
`maxWait`, not the elapsed duration. -/
theorem query_after_deadline_counterexample :
    (get_result true 10 [pendingReply 10, pendingReply 0]).queryTimes = [0, 11] ∧
      10 < 11 ∧
      (get_result true 10 [pendingReply 10, pendingReply 0]).res = .error (.timeout 10) := by
  decide

/-- C3 as amended: after every pending observation the elapsed time is
recomputed and compared against `maxWait` before the sleep that precedes the
next status query; a failed check raises `TimeoutError` naming `maxWait`
(not the elapsed duration) with no further query (queries = sleeps + 1). The
check precedes the one-second sleep, so an additional query may be issued
after the deadline, though never later than `maxWait + 1`. -/
theorem deadline_checked_before_sleep :
    (∀ (wt : Bool) (w : Nat) (rs : List Reply),
        ∀ q ∈ (get_result wt w rs).queryTimes, q ≤ w + 1) ∧
      ∀ (wt : Bool) (w : Nat) (rs : List Reply) (m : Nat),
        (get_result wt w rs).res = .error (.timeout m) →
          m = w ∧
            (get_result wt w rs).queryTimes.length = (get_result wt w rs).sleeps + 1 := by
  constructor
  · intro wt w rs q hq
    exact loop_queryTimes_le wt w rs 0 (by omega) q hq
  · intro wt w rs m hm
    obtain ⟨h1, h2, _⟩ := loop_timeout_inv wt w rs 0 _ rfl m hm
    exact ⟨h1, h2⟩

/-- Witness for C3's amended theorem: in the counterexample run the late
query at elapsed 11 is within the `maxWait + 1 = 11` bound, and the timeout
error names `maxWait = 10` after two queries and one sleep. -/
theorem deadline_checked_before_sleep_witness :
    (11 : Nat) ≤ 10 + 1 ∧
      ((10 : Nat) = 10 ∧
        (get_result true 10 [pendingReply 10, pendingReply 0]).queryTimes.length =
          (get_result true 10 [pendingReply 10, pendingReply 0]).sleeps + 1) :=
  ⟨deadline_checked_before_sleep.1 true 10 [pendingReply 10, pendingReply 0] 11 (by decide),
    deadline_checked_before_sleep.2 true 10 [pendingReply 10, pendingReply 0] 10 (by decide)⟩

/-- If the `n`-th status query of a run observes a status string outside the
known set, the run stops right there with the unrecognized-status failure:
that query is the last one (`n + 1` queries in total) and no sleep follows it
(all `n` sleeps belong to the earlier pending observations). -/
theorem loop_unknown_inv (wt : Bool) (w : Nat) :
    ∀ (rs : List Reply) (t : Nat) (o : RunOut), get_result_loop wt w rs t = o →
      ∀ (n : Nat) (hn : n < rs.length), n < o.queryTimes.length →
        isUnknownB (rs.get ⟨n, hn⟩) = true →
        (∃ s, o.res = .error (.unknownStatus s)) ∧
          o.queryTimes.length = n + 1 ∧ o.sleeps = n := by
  intro rs
  induction rs with
  | nil =>
    intro t o ho n hn
    exact absurd hn (by simp)
  | cons r rs ih =>
    intro t o ho n hn hq hU
    rcases r with ⟨d, oc⟩
    cases oc with
    | httpError c txt =>
      simp only [get_result_loop, check_status] at ho
      subst ho
      obtain rfl : n = 0 := by simpa [Nat.lt_one_iff] using hq
      simp [isUnknownB] at hU
    | status sd =>
      simp only [get_result_loop, check_status] at ho
      by_cases hC : sd.status = some "COMPLETED"
      · have hstop : ∃ r0, o = ⟨r0, [t], 0⟩ := by
          simp only [hC, beq_self_eq_true, if_pos rfl] at ho
          cases he : sd.output.error with
          | some msg => simp only [he] at ho; exact ⟨_, ho.symm⟩
          | none =>
            simp only [he] at ho
            cases hi : sd.output.image with
            | none => simp only [hi] at ho; exact ⟨_, ho.symm⟩
            | some img =>
              simp only [hi] at ho
              cases hb : b64decode img.toList with
              | none => simp only [hb] at ho; exact ⟨_, ho.symm⟩
              | some bytes => simp only [hb] at ho; exact ⟨_, ho.symm⟩
        obtain ⟨r0, rfl⟩ := hstop
        obtain rfl : n = 0 := by simpa [Nat.lt_one_iff] using hq
        simp [isUnknownB, hC] at hU
      · by_cases hF : sd.status = some "FAILED"
        · simp [hC, hF] at ho
          subst ho
          obtain rfl : n = 0 := by simpa [Nat.lt_one_iff] using hq
          simp [isUnknownB, hF] at hU
        · by_cases hP : isPendingStatus sd.status = true
          · by_cases hW : wt = true
            · subst hW
              by_cases hT : t + d > w
              · simp [hC, hF, hP, hT] at ho
                subst ho
                obtain rfl : n = 0 := by simpa [Nat.lt_one_iff] using hq
                simp [isUnknownB, hP] at hU
              · simp [hC, hF, hP, hT] at ho
                subst ho
                simp only [RunOut.queryTimes, List.length_cons] at hq
                cases n with
                | zero => simp [isUnknownB, hP] at hU
                | succ m =>
                  have hm : m < rs.length := by
                    simpa using hn
                  have hq' : m < (get_result_loop true w rs (t + d + 1)).queryTimes.length := by
                    omega
                  have hU' : isUnknownB (rs.get ⟨m, hm⟩) = true := by
                    simpa using hU
                  obtain ⟨hex, hlen, hsl⟩ :=
                    ih (t + d + 1) _ rfl m hm hq' hU'
                  refine ⟨hex, ?_, ?_⟩
                  · simp only [RunOut.queryTimes, List.length_cons]
                    omega
                  · simp only [RunOut.sleeps]
                    omega
            · obtain rfl : wt = false := by simpa using hW
              simp [hC, hF, hP] at ho
              subst ho
              obtain rfl : n = 0 := by simpa [Nat.lt_one_iff] using hq
              simp [isUnknownB, hP] at hU
          · simp [hC, hF, hP] at ho
            subst ho
            obtain rfl : n = 0 := by simpa [Nat.lt_one_iff] using hq
            exact ⟨⟨sd.status, rfl⟩, by simp, rfl⟩

/-- C7: when a status query observes a status string outside the known set
(`IN_QUEUE`, `IN_PROGRESS`, `COMPLETED`, `FAILED`), the poll loop terminates
right there with the unrecognized-status failure: that query is the last one
issued and no sleep follows it, so an unanticipated status value can never be
treated as pending or cause further polling. -/
theorem unknown_status_terminates_immediately :
    ∀ (wt : Bool) (w : Nat) (rs : List Reply) (n : Nat) (hn : n < rs.length),
      n < (get_result wt w rs).queryTimes.length →
      isUnknownB (rs.get ⟨n, hn⟩) = true →
      (∃ s, (get_result wt w rs).res = .error (.unknownStatus s)) ∧
        (get_result wt w rs).queryTimes.length = n + 1 ∧
        (get_result wt w rs).sleeps = n := by
  intro wt w rs n hn hq hU
  exact loop_unknown_inv wt w rs 0 _ rfl n hn hq hU

/-- Witness for C7: a pending observation followed by status `BOOTING` stops
the loop at the second query with the unrecognized-status failure. -/
theorem unknown_status_terminates_immediately_witness :
    (∃ s, (get_result true 120 [pendingReply 2, weirdReply]).res =
        .error (.unknownStatus s)) ∧
      (get_result true 120 [pendingReply 2, weirdReply]).queryTimes.length = 1 + 1 ∧
      (get_result true 120 [pendingReply 2, weirdReply]).sleeps = 1 :=
  unknown_status_terminates_immediately true 120 [pendingReply 2, weirdReply] 1
    (by decide) (by decide) (by decide)

end ZImage
